import Mathlib

/-!
# Verification of the ECG acquisition pipeline

Shallow embedding of the Arduino ECG firmware (dual-input sketch, synthetic
sender sketch) and the visualizer's 2-value CSV fallback. Floating-point
arithmetic of the source is modelled over the rationals (exact real
arithmetic); machine `unsigned long` time arithmetic is modelled as naturals
modulo 2^32 where wraparound matters.
-/

namespace ECG

/-! ## Configuration constants (from the `User config` block of the sketch) -/

/-- Sample rate `SAMPLE_RATE_HZ`. -/
def SAMPLE_RATE_HZ : ℕ := 125

/-- Calibration window `CALIBRATION_TIME_MS` (5 s auto-cal). -/
def CALIBRATION_TIME_MS : ℕ := 5000

/-- Unit conversion `MV_PER_UNIT = 1.0f`. -/
def MV_PER_UNIT : ℚ := 1

/-- Reference amplitude `REF_MV = 1.0f` (target during auto-gain). -/
def REF_MV : ℚ := 1

/-- The amplitude floor: the literal `1.0f` in `if (amp1 < 1.0f) amp1 = 1.0f`. -/
def MIN_FLOOR : ℚ := 1

/-! ## Biquad filter (`struct Biquad`, `processStage`, `ECGFilter`) -/

/-- One second-order stage, `struct Biquad`: five coefficients and two
feedback memory cells. -/
structure Biquad where
  a1 : ℚ
  a2 : ℚ
  b0 : ℚ
  b1 : ℚ
  b2 : ℚ
  z1 : ℚ
  z2 : ℚ
deriving Repr, DecidableEq

/-- Stage transform `processStage(Biquad &s, float in)`: returns the
output sample and the updated stage state (the C code mutates `s` in place). -/
def processStage (s : Biquad) (inp : ℚ) : ℚ × Biquad :=
  let x := inp - s.a1 * s.z1 - s.a2 * s.z2
  let out := s.b0 * x + s.b1 * s.z1 + s.b2 * s.z2
  (out, { s with z2 := s.z1, z1 := x })

/-- One channel's filter state: the four biquad stages of `st[ch][0..3]`,
kept as a list applied in order. -/
abbrev ChannelState := List Biquad

/-- Cascade `ECGFilter(int ch, float input)`: runs the input through the channel's
stages in order (`for(int i=0;i<4;i++) y = processStage(st[ch][i], y);`),
returning the final output and the updated stage states. -/
def ECGFilter (stages : ChannelState) (input : ℚ) : ℚ × ChannelState :=
  match stages with
  | [] => (input, [])
  | s :: rest =>
      let (y, s') := processStage s input
      let (out, rest') := ECGFilter rest y
      (out, s' :: rest')

/-- One stage of `initFilter` (the float literals read as exact decimals). -/
def initStage1 : Biquad := ⟨0.70682283, 0.15621030, 0.28064917, 0.56129834, 0.28064917, 0, 0⟩

def initStage2 : Biquad := ⟨0.95028224, 0.54073140, 1, 2, 1, 0, 0⟩

def initStage3 : Biquad := ⟨-1.95360385, 0.95423412, 1, -2, 1, 0, 0⟩

def initStage4 : Biquad := ⟨-1.98048558, 0.98111344, 1, -2, 1, 0, 0⟩

/-- Coefficient table of `initFilter()`: shared stages, zero initial state,
identical for both channels. -/
def initChannel : ChannelState := [initStage1, initStage2, initStage3, initStage4]

/-- Polarity flag `INVERT_CH1 = false`. -/
def INVERT_CH1 : Bool := false

/-- Polarity flag `INVERT_CH2 = false`. -/
def INVERT_CH2 : Bool := false

/-! ## Calibration engine (the `Calibration state` globals and `updateCalibration`) -/

/-- The calibration globals: `calibrated`, `min1_ / max1_ / min2_ / max2_`,
`baseline1 / baseline2`, `gain1 / gain2`. -/
structure Calib where
  calibrated : Bool
  min1 : ℚ
  max1 : ℚ
  min2 : ℚ
  max2 : ℚ
  baseline1 : ℚ
  baseline2 : ℚ
  gain1 : ℚ
  gain2 : ℚ
deriving Repr, DecidableEq

/-- Initial values of the calibration globals:
`min = 1e9, max = -1e9, baseline = 0, gain = 1, calibrated = false`. -/
def initCalib : Calib :=
  { calibrated := false
    min1 := 10 ^ 9, max1 := -(10 ^ 9)
    min2 := 10 ^ 9, max2 := -(10 ^ 9)
    baseline1 := 0, baseline2 := 0
    gain1 := 1, gain2 := 1 }

/-- Observation step `updateCalibration(float f1, float f2)`. `elapsedMs` models
`millis() - calibStartMs`. The min/max trackers update unconditionally;
the one-shot transition fires when `!calibrated` and the elapsed time has
reached `CALIBRATION_TIME_MS`, fixing baselines and (floored) gains. -/
def updateCalibration (elapsedMs : ℕ) (f1 f2 : ℚ) (c : Calib) : Calib :=
  let min1 := if f1 < c.min1 then f1 else c.min1
  let max1 := if f1 > c.max1 then f1 else c.max1
  let min2 := if f2 < c.min2 then f2 else c.min2
  let max2 := if f2 > c.max2 then f2 else c.max2
  if ¬c.calibrated ∧ CALIBRATION_TIME_MS ≤ elapsedMs then
    let amp1 := 0.5 * (max1 - min1)
    let amp2 := 0.5 * (max2 - min2)
    let amp1 := if amp1 < MIN_FLOOR then MIN_FLOOR else amp1
    let amp2 := if amp2 < MIN_FLOOR then MIN_FLOOR else amp2
    { calibrated := true
      min1 := min1, max1 := max1, min2 := min2, max2 := max2
      baseline1 := 0.5 * (max1 + min1), baseline2 := 0.5 * (max2 + min2)
      gain1 := REF_MV / amp1, gain2 := REF_MV / amp2 }
  else
    { c with min1 := min1, max1 := max1, min2 := min2, max2 := max2 }

/-! ## Lead derivation and record emission (`emitJson`) -/

/-- The six-lead record emitted once per tick. -/
structure LeadRecord where
  lead1 : ℚ
  lead2 : ℚ
  lead3 : ℚ
  avr : ℚ
  avl : ℚ
  avf : ℚ
deriving Repr, DecidableEq

/-- Emission `emitJson(float lead1_mv, float lead2_mv)`: derives Lead III and the
augmented leads from the two calibrated channels and packages the record
(the serial printing itself is outside the model). -/
def emitJson (lead1 lead2 : ℚ) : LeadRecord :=
  let lead3 := lead2 - lead1
  let ra : ℚ := 0
  let la := lead1
  let ll := lead2
  { lead1 := lead1, lead2 := lead2, lead3 := lead3
    avr := ra - 0.5 * (la + ll)
    avl := la - 0.5 * (ra + ll)
    avf := ll - 0.5 * (ra + la) }

/-! ## The per-tick pipeline (`loop`, after the scheduler gate) -/

/-- The mutable state of the whole sketch: both channels' filter stages and
the calibration globals. -/
structure SysState where
  st0 : ChannelState
  st1 : ChannelState
  cal : Calib

/-- The pipeline startup state (`initFilter()` plus the calibration globals). -/
def initSys : SysState :=
  { st0 := initChannel, st1 := initChannel, cal := initCalib }

/-- One processed tick of `loop` (the body after the deadline gate):
optional polarity inversion, per-channel filtering with separate state,
calibration tracking, conditional baseline/gain application, millivolt
mapping, and record emission. -/
def tick (elapsedMs : ℕ) (raw1 raw2 : ℚ) (s : SysState) : SysState × LeadRecord :=
  let r1 := if INVERT_CH1 then -raw1 else raw1
  let r2 := if INVERT_CH2 then -raw2 else raw2
  let p1 := ECGFilter s.st0 r1
  let p2 := ECGFilter s.st1 r2
  let f1 := p1.1
  let f2 := p2.1
  let cal := updateCalibration elapsedMs f1 f2 s.cal
  let s1 := if cal.calibrated then (f1 - cal.baseline1) * cal.gain1 else f1
  let s2 := if cal.calibrated then (f2 - cal.baseline2) * cal.gain2 else f2
  ({ st0 := p1.2, st1 := p2.2, cal := cal },
   emitJson (s1 * MV_PER_UNIT) (s2 * MV_PER_UNIT))

/-- One tick's input: the elapsed milliseconds at that tick and the two raw
channel samples. -/
structure TickInput where
  elapsedMs : ℕ
  raw1 : ℚ
  raw2 : ℚ
deriving Repr, DecidableEq

/-- A run of the pipeline over a list of tick inputs, collecting the emitted
records. -/
def run (s : SysState) : List TickInput → SysState × List LeadRecord
  | [] => (s, [])
  | i :: is =>
      let p := tick i.elapsedMs i.raw1 i.raw2 s
      let q := run p.1 is
      (q.1, p.2 :: q.2)

/-! ## Per-channel filtered traces (for the channel-independence property) -/

/-- The filtered outputs one channel's cascade produces on its own raw input
sequence, with that channel's polarity flag applied first — a function of
that channel's data alone. -/
def channelTrace (invert : Bool) (st : ChannelState) : List ℚ → List ℚ
  | [] => []
  | x :: xs =>
      let p := ECGFilter st (if invert then -x else x)
      p.1 :: channelTrace invert p.2 xs

/-- Channel 1's filtered values (`f1`) at each tick of a full pipeline run. -/
def filteredTrace1 (s : SysState) : List TickInput → List ℚ
  | [] => []
  | i :: is =>
      (ECGFilter s.st0 (if INVERT_CH1 then -i.raw1 else i.raw1)).1 ::
        filteredTrace1 (tick i.elapsedMs i.raw1 i.raw2 s).1 is

/-- Channel 2's filtered values (`f2`) at each tick of a full pipeline run. -/
def filteredTrace2 (s : SysState) : List TickInput → List ℚ
  | [] => []
  | i :: is =>
      (ECGFilter s.st1 (if INVERT_CH2 then -i.raw2 else i.raw2)).1 ::
        filteredTrace2 (tick i.elapsedMs i.raw1 i.raw2 s).1 is

/-! ## The sample scheduler (head of `loop`, `micros()` arithmetic) -/

/-- Modulus of the Arduino `unsigned long` (32-bit). -/
def U32 : ℕ := 2 ^ 32

/-- Tick interval `intervalUs = 1000000UL / SAMPLE_RATE_HZ`. -/
def intervalUs : ℕ := 1000000 / SAMPLE_RATE_HZ

/-- Wrapping 32-bit subtraction, the meaning of `now - lastUs` on `unsigned
long` values below `2^32`. -/
def usub32 (a b : ℕ) : ℕ := (a + U32 - b) % U32

/-- The deadline gate at the head of `loop`: if `now - lastUs < intervalUs`
the iteration returns without work; otherwise `lastUs += intervalUs` (32-bit
wrap) and exactly one tick is processed. Returns (processed?, new lastUs). -/
def schedStep (now lastUs : ℕ) : Bool × ℕ :=
  if usub32 now lastUs < intervalUs then (false, lastUs)
  else (true, (lastUs + intervalUs) % U32)

/-- Repeated `loop` invocations over a sequence of observed clock values;
returns the number of processed ticks and the final deadline register. -/
def schedRun (lastUs : ℕ) : List ℕ → ℕ × ℕ
  | [] => (0, lastUs)
  | now :: ns =>
      let p := schedStep now lastUs
      let q := schedRun p.2 ns
      ((if p.1 then 1 else 0) + q.1, q.2)

/-! ## The other two lead derivations (synthetic-sender sketch; visualizer) -/

/-- Lead derivation of the synthetic-sender sketch (`loop`, simulated branch):
`lead3 = lead2 - lead1`, then the augmented leads from the approximate limb
potentials `la = lead1, ll = lead2, ra = 0`. Returns (lead3, avr, avl, avf). -/
def deriveSynth (lead1 lead2 : ℚ) : ℚ × ℚ × ℚ × ℚ :=
  let lead3 := lead2 - lead1
  let la := lead1
  let ll := lead2
  let ra : ℚ := 0
  (lead3, ra - (la + ll) / 2, la - (ra + ll) / 2, ll - (ra + la) / 2)

/-- The visualizer's 2-value-CSV fallback (in `connect`): builds the
six-entry array `[lead1, lead2, lead3, avr, avl, avf]` from Lead I and
Lead II. -/
def deriveCSV2 (lead1 lead2 : ℚ) : List ℚ :=
  let lead3 := lead2 - lead1
  let ra : ℚ := 0
  let la := lead1
  let ll := lead2
  [lead1, lead2, lead3, ra - (la + ll) / 2, la - (ra + ll) / 2, ll - (ra + la) / 2]

/-! ## Identity (pass-through) cascade, for the end-to-end scenario -/

/-- A pass-through stage: `b0 = 1` and all other coefficients zero. -/
def idStage : Biquad := ⟨0, 0, 1, 0, 0, 0, 0⟩

/-- An identity filter cascade of four pass-through stages. -/
def idChannel : ChannelState := [idStage, idStage, idStage, idStage]

/-- The pipeline with the coefficient table set to a pass-through cascade. -/
def idSys : SysState :=
  { st0 := idChannel, st1 := idChannel, cal := initCalib }

/-- A channel state whose stages all carry pass-through coefficients (the
memory cells are arbitrary: they never influence a pass-through output). -/
def IsIdChannel (c : ChannelState) : Prop :=
  ∀ s ∈ c, s.a1 = 0 ∧ s.a2 = 0 ∧ s.b0 = 1 ∧ s.b1 = 0 ∧ s.b2 = 0

/-- The all-zero emitted record. -/
def zeroRecord : LeadRecord := ⟨0, 0, 0, 0, 0, 0⟩

/-- The calibration globals while collecting constants 100 / 150: min = max
on each channel, flag still down, baselines and gains at their startup
values. -/
def preCal : Calib := ⟨false, 100, 100, 150, 150, 0, 0, 1, 1⟩

/-- The calibration globals just after the transition fires on the constant
100 / 150 history: baselines at the constants, amplitudes floored, unit
gains. -/
def postCal : Calib := ⟨true, 100, 100, 150, 150, 100, 150, 1, 1⟩

/-- The channel-1 filtered value computed inside one tick
(the local `f1` of `loop`). -/
def f1At (s : SysState) (raw1 : ℚ) : ℚ :=
  (ECGFilter s.st0 (if INVERT_CH1 then -raw1 else raw1)).1

/-- The channel-2 filtered value computed inside one tick
(the local `f2` of `loop`). -/
def f2At (s : SysState) (raw2 : ℚ) : ℚ :=
  (ECGFilter s.st1 (if INVERT_CH2 then -raw2 else raw2)).1

/-- The calibration state right after the tick's `updateCalibration` call. -/
def calAt (e : ℕ) (raw1 raw2 : ℚ) (s : SysState) : Calib :=
  updateCalibration e (f1At s raw1) (f2At s raw2) s.cal

/-! ## Theorems -/

/-- The calibration component of the state produced by one tick is exactly
the result of the tick's `updateCalibration` call. -/
theorem tick_cal (e : ℕ) (r1 r2 : ℚ) (s : SysState) :
    (tick e r1 r2 s).1.cal = calAt e r1 r2 s := rfl

/-- Once `calibrated` is true, a single `updateCalibration` call keeps it
true (the transition guard is `!calibrated`, and the else branch copies the
flag). -/
theorem updateCalibration_keeps (e : ℕ) (f1 f2 : ℚ) (c : Calib)
    (h : c.calibrated = true) : (updateCalibration e f1 f2 c).calibrated = true := by
  simp [updateCalibration, h]

/-- C4: each biquad stage computes `x = in - a1*z1 - a2*z2` and
`out = b0*x + b1*z1 + b2*z2`, then shifts `z2 := z1, z1 := x`; the channel
filter is the four stages composed in fixed order, stage i feeding
stage i+1. -/
theorem biquad_stage_cascade_spec (s s0 s1 s2 s3 : Biquad) (inp : ℚ) :
    processStage s inp =
      (s.b0 * (inp - s.a1 * s.z1 - s.a2 * s.z2) + s.b1 * s.z1 + s.b2 * s.z2,
       { s with z1 := inp - s.a1 * s.z1 - s.a2 * s.z2, z2 := s.z1 }) ∧
    ECGFilter [s0, s1, s2, s3] inp =
      ((processStage s3 (processStage s2 (processStage s1 (processStage s0 inp).1).1).1).1,
       [(processStage s0 inp).2,
        (processStage s1 (processStage s0 inp).1).2,
        (processStage s2 (processStage s1 (processStage s0 inp).1).1).2,
        (processStage s3 (processStage s2 (processStage s1 (processStage s0 inp).1).1).1).2]) :=
  ⟨rfl, rfl⟩

/-- C6: the emitted record satisfies `lead3 = lead2 - lead1`,
`avr = -(lead1+lead2)/2`, `avl = lead1 - lead2/2`, `avf = lead2 - lead1/2`,
and consequently `avr + avl + avf = 0`, exactly, for all inputs. -/
theorem lead_derivation_identities (l1 l2 : ℚ) :
    (emitJson l1 l2).lead3 = l2 - l1 ∧
    (emitJson l1 l2).avr = -(l1 + l2) / 2 ∧
    (emitJson l1 l2).avl = l1 - l2 / 2 ∧
    (emitJson l1 l2).avf = l2 - l1 / 2 ∧
    (emitJson l1 l2).avr + (emitJson l1 l2).avl + (emitJson l1 l2).avf = 0 := by
  refine ⟨rfl, ?_, ?_, ?_, ?_⟩ <;> simp only [emitJson] <;> ring

/-- C9: the live-analog sketch's `emitJson`, the sender sketch's
derivation, and the visualizer's 2-value-CSV fallback compute the same
function from (lead1, lead2) to (lead3, avr, avl, avf). -/
theorem lead_derivation_variants_agree (l1 l2 : ℚ) :
    deriveSynth l1 l2 =
      ((emitJson l1 l2).lead3, (emitJson l1 l2).avr,
       (emitJson l1 l2).avl, (emitJson l1 l2).avf) ∧
    deriveCSV2 l1 l2 =
      [(emitJson l1 l2).lead1, (emitJson l1 l2).lead2, (emitJson l1 l2).lead3,
       (emitJson l1 l2).avr, (emitJson l1 l2).avl, (emitJson l1 l2).avf] := by
  constructor
  · simp only [deriveSynth, emitJson, Prod.mk.injEq]
    refine ⟨trivial, by ring, by ring, by ring⟩
  · simp only [deriveCSV2, emitJson, List.cons.injEq, and_true]
    refine ⟨trivial, trivial, trivial, by ring, by ring, by ring⟩

/-- C2: within one tick, after the `updateCalibration` call, the apply step
emits the filtered sample unchanged (up to the millivolt factor) while the
flag is down, and `(f - baseline) * gain` once the flag is up. -/
theorem apply_passthrough_then_affine (e : ℕ) (raw1 raw2 : ℚ) (s : SysState) :
    ((calAt e raw1 raw2 s).calibrated = false →
      (tick e raw1 raw2 s).2.lead1 = f1At s raw1 * MV_PER_UNIT ∧
      (tick e raw1 raw2 s).2.lead2 = f2At s raw2 * MV_PER_UNIT) ∧
    ((calAt e raw1 raw2 s).calibrated = true →
      (tick e raw1 raw2 s).2.lead1 =
        (f1At s raw1 - (calAt e raw1 raw2 s).baseline1) *
          (calAt e raw1 raw2 s).gain1 * MV_PER_UNIT ∧
      (tick e raw1 raw2 s).2.lead2 =
        (f2At s raw2 - (calAt e raw1 raw2 s).baseline2) *
          (calAt e raw1 raw2 s).gain2 * MV_PER_UNIT) := by
  constructor <;> intro h <;>
    simp only [tick, emitJson, f1At, f2At, calAt] at h ⊢ <;> rw [h] <;> simp

/-- Witness for C2: at startup (elapsed 0) the flag is still down and the
first tick passes the filtered samples through unchanged. -/
theorem apply_passthrough_witness :
    (calAt 0 5 7 initSys).calibrated = false ∧
    ((tick 0 5 7 initSys).2.lead1 = f1At initSys 5 * MV_PER_UNIT ∧
     (tick 0 5 7 initSys).2.lead2 = f2At initSys 7 * MV_PER_UNIT) :=
  ⟨by decide, (apply_passthrough_then_affine 0 5 7 initSys).1 (by decide)⟩

/-- C3: the calibrated flag is one-shot — if it is true in some state, it is
still true after any further run of ticks. -/
theorem calibrated_one_shot (s : SysState) (is : List TickInput)
    (h : s.cal.calibrated = true) : ((run s is).1).cal.calibrated = true := by
  induction is generalizing s with
  | nil => exact h
  | cons i is ih =>
      show ((run (tick i.elapsedMs i.raw1 i.raw2 s).1 is).1).cal.calibrated = true
      exact ih _ (by rw [tick_cal]; exact updateCalibration_keeps _ _ _ _ h)

/-- Witness for C3: a run that crosses the deadline sets the flag, and a
further tick leaves it set. -/
theorem calibrated_one_shot_witness :
    ((run initSys [⟨5000, 1, 2⟩]).1).cal.calibrated = true ∧
    ((run (run initSys [⟨5000, 1, 2⟩]).1 [⟨5008, 3, 4⟩]).1).cal.calibrated = true :=
  ⟨by decide, calibrated_one_shot _ _ (by decide)⟩

/-- Channel 1's filtered trace along a full run factors through the
channel-1 state and raw inputs alone. -/
theorem filteredTrace1_factor (is : List TickInput) : ∀ s : SysState,
    filteredTrace1 s is = channelTrace INVERT_CH1 s.st0 (is.map TickInput.raw1) := by
  induction is with
  | nil => intro s; rfl
  | cons i is ih =>
      intro s
      simp only [filteredTrace1, channelTrace, List.map_cons]
      congr 1
      exact ih _

/-- Channel 2's filtered trace along a full run factors through the
channel-2 state and raw inputs alone. -/
theorem filteredTrace2_factor (is : List TickInput) : ∀ s : SysState,
    filteredTrace2 s is = channelTrace INVERT_CH2 s.st1 (is.map TickInput.raw2) := by
  induction is with
  | nil => intro s; rfl
  | cons i is ih =>
      intro s
      simp only [filteredTrace2, channelTrace, List.map_cons]
      congr 1
      exact ih _

/-- C5: runs that agree on one channel's raw input sequence produce
identical filtered outputs on that channel, however the other channel's
inputs differ — the two channels' filter states are disjoint. -/
theorem channel_noninterference (s : SysState) (is js : List TickInput) :
    (is.map TickInput.raw1 = js.map TickInput.raw1 →
      filteredTrace1 s is = filteredTrace1 s js) ∧
    (is.map TickInput.raw2 = js.map TickInput.raw2 →
      filteredTrace2 s is = filteredTrace2 s js) := by
  refine ⟨fun h => ?_, fun h => ?_⟩
  · rw [filteredTrace1_factor, filteredTrace1_factor, h]
  · rw [filteredTrace2_factor, filteredTrace2_factor, h]

/-- Witness for C5: two concrete runs differing only in channel 2's inputs
give the same channel-1 filtered trace. -/
theorem channel_noninterference_witness :
    ([⟨0, 1, 5⟩, ⟨8, 2, 7⟩] : List TickInput).map TickInput.raw1 =
      ([⟨0, 1, -3⟩, ⟨8, 2, 100⟩] : List TickInput).map TickInput.raw1 ∧
    filteredTrace1 initSys [⟨0, 1, 5⟩, ⟨8, 2, 7⟩] =
      filteredTrace1 initSys [⟨0, 1, -3⟩, ⟨8, 2, 100⟩] :=
  ⟨by decide,
   (channel_noninterference initSys [⟨0, 1, 5⟩, ⟨8, 2, 7⟩]
      [⟨0, 1, -3⟩, ⟨8, 2, 100⟩]).1 (by decide)⟩

/-- Over any sequence of loop invocations, the deadline register ends at
the start value plus one interval per processed tick (mod 2^32). -/
theorem schedRun_accum (ns : List ℕ) : ∀ lastUs : ℕ, lastUs < U32 →
    (schedRun lastUs ns).2 = (lastUs + (schedRun lastUs ns).1 * intervalUs) % U32 := by
  induction ns with
  | nil => intro l hl; simp [schedRun, Nat.mod_eq_of_lt hl]
  | cons n ns ih =>
      intro l hl
      by_cases h : usub32 n l < intervalUs
      · simpa [schedRun, schedStep, h] using ih l hl
      · have h2 : (l + intervalUs) % U32 < U32 := Nat.mod_lt _ (by norm_num [U32])
        simp only [schedRun, schedStep, h, if_false, if_true, ite_false, ite_true]
        rw [ih ((l + intervalUs) % U32) h2, Nat.mod_add_mod]
        congr 1
        ring

/-- C7: the deadline gate yields untouched before the deadline, advances the
deadline by exactly one interval per processed tick (never resetting it to
the current time), and over any run the deadline register accounts for
exactly one interval per emitted sample. -/
theorem scheduler_deadline_discipline (now lastUs : ℕ) (ns : List ℕ)
    (hl : lastUs < U32) :
    (usub32 now lastUs < intervalUs → schedStep now lastUs = (false, lastUs)) ∧
    (intervalUs ≤ usub32 now lastUs →
      schedStep now lastUs = (true, (lastUs + intervalUs) % U32)) ∧
    (schedRun lastUs ns).2 = (lastUs + (schedRun lastUs ns).1 * intervalUs) % U32 :=
  ⟨fun h => by simp [schedStep, h],
   fun h => by simp [schedStep, Nat.not_lt.mpr h],
   schedRun_accum ns lastUs hl⟩

/-- An ascending comparison written as the source writes it, as a `min`. -/
theorem ite_lt_eq_min (a b : ℚ) : (if a < b then a else b) = min a b := by
  rcases lt_or_le a b with h | h
  · simp [h, min_eq_left h.le]
  · simp [not_lt.mpr h, min_eq_right h]

/-- A descending comparison written as the source writes it, as a `max`. -/
theorem ite_gt_eq_max (a b : ℚ) : (if a > b then a else b) = max a b := by
  rcases lt_or_le b a with h | h
  · simp [h, max_eq_left h.le]
  · simp [not_lt.mpr h, max_eq_right h]

/-- The amplitude floor written as the source writes it, as a `max`. -/
theorem ite_floor_eq_max (x m : ℚ) : (if x < m then m else x) = max m x := by
  rcases lt_or_le x m with h | h
  · simp [h, max_eq_left h.le]
  · simp [not_lt.mpr h, max_eq_right h]

/-- The channel-1 minimum tracker is the same comparison in both branches. -/
theorem updateCalibration_min1 (e : ℕ) (f1 f2 : ℚ) (c : Calib) :
    (updateCalibration e f1 f2 c).min1 = if f1 < c.min1 then f1 else c.min1 := by
  simp only [updateCalibration]
  split <;> rfl

/-- The channel-1 maximum tracker is the same comparison in both branches. -/
theorem updateCalibration_max1 (e : ℕ) (f1 f2 : ℚ) (c : Calib) :
    (updateCalibration e f1 f2 c).max1 = if f1 > c.max1 then f1 else c.max1 := by
  simp only [updateCalibration]
  split <;> rfl

/-- The channel-2 minimum tracker is the same comparison in both branches. -/
theorem updateCalibration_min2 (e : ℕ) (f1 f2 : ℚ) (c : Calib) :
    (updateCalibration e f1 f2 c).min2 = if f2 < c.min2 then f2 else c.min2 := by
  simp only [updateCalibration]
  split <;> rfl

/-- The channel-2 maximum tracker is the same comparison in both branches. -/
theorem updateCalibration_max2 (e : ℕ) (f1 f2 : ℚ) (c : Calib) :
    (updateCalibration e f1 f2 c).max2 = if f2 > c.max2 then f2 else c.max2 := by
  simp only [updateCalibration]
  split <;> rfl

/-- The min/max trackers after one observation are the pointwise min/max of
the sample with the previous trackers, in every branch. -/
theorem updateCalibration_trackers (e : ℕ) (f1 f2 : ℚ) (c : Calib) :
    (updateCalibration e f1 f2 c).min1 = min f1 c.min1 ∧
    (updateCalibration e f1 f2 c).max1 = max f1 c.max1 ∧
    (updateCalibration e f1 f2 c).min2 = min f2 c.min2 ∧
    (updateCalibration e f1 f2 c).max2 = max f2 c.max2 := by
  rw [updateCalibration_min1, updateCalibration_max1, updateCalibration_min2,
    updateCalibration_max2]
  exact ⟨ite_lt_eq_min f1 c.min1, ite_gt_eq_max f1 c.max1,
    ite_lt_eq_min f2 c.min2, ite_gt_eq_max f2 c.max2⟩

/-- Every `updateCalibration` call brackets the observed sample between the
updated trackers. -/
theorem updateCalibration_bounds (e : ℕ) (f1 f2 : ℚ) (c : Calib) :
    (updateCalibration e f1 f2 c).min1 ≤ f1 ∧ f1 ≤ (updateCalibration e f1 f2 c).max1 ∧
    (updateCalibration e f1 f2 c).min2 ≤ f2 ∧ f2 ≤ (updateCalibration e f1 f2 c).max2 := by
  obtain ⟨h1, h2, h3, h4⟩ := updateCalibration_trackers e f1 f2 c
  rw [h1, h2, h3, h4]
  exact ⟨min_le_left _ _, le_max_left _ _, min_le_left _ _, le_max_left _ _⟩

/-- Witness for C7: a ready deadline processes exactly one tick and advances
the register one interval; a concrete run's register matches the per-tick
accounting. -/
theorem scheduler_witness :
    (0 : ℕ) < U32 ∧ intervalUs ≤ usub32 8000 0 ∧
    schedStep 8000 0 = (true, (0 + intervalUs) % U32) ∧
    (schedRun 0 [0, 8000, 16000]).2 =
      (0 + (schedRun 0 [0, 8000, 16000]).1 * intervalUs) % U32 :=
  ⟨by decide, by decide,
   (scheduler_deadline_discipline 8000 0 [0, 8000, 16000] (by decide)).2.1 (by decide),
   (scheduler_deadline_discipline 8000 0 [0, 8000, 16000] (by decide)).2.2⟩

/-- When the transition fires, `updateCalibration` returns exactly the
record whose baselines are tracker midpoints and whose gains divide the
reference by the floored amplitudes. -/
theorem updateCalibration_fires (e : ℕ) (f1 f2 : ℚ) (c : Calib)
    (hc : c.calibrated = false) (he : CALIBRATION_TIME_MS ≤ e) :
    updateCalibration e f1 f2 c =
      { calibrated := true
        min1 := min f1 c.min1, max1 := max f1 c.max1
        min2 := min f2 c.min2, max2 := max f2 c.max2
        baseline1 := (max f1 c.max1 + min f1 c.min1) / 2
        baseline2 := (max f2 c.max2 + min f2 c.min2) / 2
        gain1 := REF_MV / max MIN_FLOOR ((max f1 c.max1 - min f1 c.min1) / 2)
        gain2 := REF_MV / max MIN_FLOOR ((max f2 c.max2 - min f2 c.min2) / 2) } := by
  have h05 : ∀ x : ℚ, 0.5 * x = x / 2 := fun x => by ring
  simp only [updateCalibration]
  rw [if_pos (by simp [hc, he])]
  simp only [ite_lt_eq_min, ite_gt_eq_max, h05, ite_floor_eq_max]

/-- C1: at the calibration transition, each channel's baseline is the
midpoint of its trackers and its gain is the reference amplitude over the
floored half-range; the gain is positive (hence finite over the exact
rationals) for every observation history, and a flat history (min = max)
yields `gain = REF_MV / MIN_FLOOR`. -/
theorem calibration_transition_spec (e : ℕ) (f1 f2 : ℚ) (c : Calib)
    (hc : c.calibrated = false) (he : CALIBRATION_TIME_MS ≤ e) :
    (updateCalibration e f1 f2 c).baseline1 = (max f1 c.max1 + min f1 c.min1) / 2 ∧
    (updateCalibration e f1 f2 c).gain1 =
      REF_MV / max MIN_FLOOR ((max f1 c.max1 - min f1 c.min1) / 2) ∧
    0 < (updateCalibration e f1 f2 c).gain1 ∧
    (min f1 c.min1 = max f1 c.max1 →
      (updateCalibration e f1 f2 c).gain1 = REF_MV / MIN_FLOOR) ∧
    (updateCalibration e f1 f2 c).baseline2 = (max f2 c.max2 + min f2 c.min2) / 2 ∧
    (updateCalibration e f1 f2 c).gain2 =
      REF_MV / max MIN_FLOOR ((max f2 c.max2 - min f2 c.min2) / 2) ∧
    0 < (updateCalibration e f1 f2 c).gain2 ∧
    (min f2 c.min2 = max f2 c.max2 →
      (updateCalibration e f1 f2 c).gain2 = REF_MV / MIN_FLOOR) := by
  rw [updateCalibration_fires e f1 f2 c hc he]
  have hpos : ∀ a b : ℚ, (0 : ℚ) < REF_MV / max MIN_FLOOR ((a - b) / 2) :=
    fun a b => div_pos (by norm_num [REF_MV])
      (lt_of_lt_of_le (by norm_num [MIN_FLOOR]) (le_max_left _ _))
  have hflat : ∀ a : ℚ, REF_MV / max MIN_FLOOR ((a - a) / 2) = REF_MV / MIN_FLOOR := by
    intro a
    rw [sub_self, zero_div, max_eq_left (by norm_num [MIN_FLOOR] : (0 : ℚ) ≤ MIN_FLOOR)]
  refine ⟨rfl, rfl, hpos _ _, fun hf => ?_, rfl, rfl, hpos _ _, fun hf => ?_⟩
  · show REF_MV / max MIN_FLOOR ((max f1 c.max1 - min f1 c.min1) / 2) = REF_MV / MIN_FLOOR
    rw [← hf] at *
    exact hflat _
  · show REF_MV / max MIN_FLOOR ((max f2 c.max2 - min f2 c.min2) / 2) = REF_MV / MIN_FLOOR
    rw [← hf] at *
    exact hflat _

/-- Witness for C1: the transition on a flat two-sample history gives the
stated baselines and the floored gain. -/
theorem calibration_transition_witness :
    initCalib.calibrated = false ∧ CALIBRATION_TIME_MS ≤ 5000 ∧
    ((updateCalibration 5000 3 4 initCalib).baseline1 =
        (max 3 initCalib.max1 + min 3 initCalib.min1) / 2 ∧
      (updateCalibration 5000 3 4 initCalib).gain1 =
        REF_MV / max MIN_FLOOR ((max 3 initCalib.max1 - min 3 initCalib.min1) / 2) ∧
      0 < (updateCalibration 5000 3 4 initCalib).gain1 ∧
      (min (3 : ℚ) initCalib.min1 = max 3 initCalib.max1 →
        (updateCalibration 5000 3 4 initCalib).gain1 = REF_MV / MIN_FLOOR) ∧
      (updateCalibration 5000 3 4 initCalib).baseline2 =
        (max 4 initCalib.max2 + min 4 initCalib.min2) / 2 ∧
      (updateCalibration 5000 3 4 initCalib).gain2 =
        REF_MV / max MIN_FLOOR ((max 4 initCalib.max2 - min 4 initCalib.min2) / 2) ∧
      0 < (updateCalibration 5000 3 4 initCalib).gain2 ∧
      (min (4 : ℚ) initCalib.min2 = max 4 initCalib.max2 →
        (updateCalibration 5000 3 4 initCalib).gain2 = REF_MV / MIN_FLOOR)) :=
  ⟨rfl, by decide, calibration_transition_spec 5000 3 4 initCalib rfl (by decide)⟩

/-- C10: whenever a run from startup ends with the calibrated flag set, at
least one sample was observed, and each channel's recorded minimum is at
most its recorded maximum, so the pre-floor amplitude is non-negative. -/
theorem calibrated_implies_observed (is : List TickInput)
    (h : ((run initSys is).1).cal.calibrated = true) :
    is ≠ [] ∧
    ((run initSys is).1).cal.min1 ≤ ((run initSys is).1).cal.max1 ∧
    ((run initSys is).1).cal.min2 ≤ ((run initSys is).1).cal.max2 ∧
    0 ≤ (((run initSys is).1).cal.max1 - ((run initSys is).1).cal.min1) / 2 ∧
    0 ≤ (((run initSys is).1).cal.max2 - ((run initSys is).1).cal.min2) / 2 := by
  have key : ∀ (js : List TickInput) (s : SysState), js ≠ [] →
      ((run s js).1).cal.min1 ≤ ((run s js).1).cal.max1 ∧
      ((run s js).1).cal.min2 ≤ ((run s js).1).cal.max2 := by
    intro js
    induction js with
    | nil => intro s hne; exact absurd rfl hne
    | cons i js ih =>
        intro s _
        cases js with
        | nil =>
            obtain ⟨h1, h2, h3, h4⟩ :=
              updateCalibration_bounds i.elapsedMs (f1At s i.raw1) (f2At s i.raw2) s.cal
            exact ⟨le_trans h1 h2, le_trans h3 h4⟩
        | cons j js =>
            exact ih (tick i.elapsedMs i.raw1 i.raw2 s).1 (by simp)
  cases is with
  | nil => exact absurd h (by decide)
  | cons i is =>
      obtain ⟨h1, h2⟩ := key (i :: is) initSys (by simp)
      exact ⟨by simp, h1, h2, div_nonneg (sub_nonneg.mpr h1) (by norm_num),
        div_nonneg (sub_nonneg.mpr h2) (by norm_num)⟩

/-- A pass-through stage emits its input unchanged and keeps its
pass-through coefficients. -/
theorem processStage_id (s : Biquad)
    (h : s.a1 = 0 ∧ s.a2 = 0 ∧ s.b0 = 1 ∧ s.b1 = 0 ∧ s.b2 = 0) (x : ℚ) :
    processStage s x = (x, { s with z1 := x, z2 := s.z1 }) := by
  obtain ⟨h1, h2, h3, h4, h5⟩ := h
  simp only [processStage, h1, h2, h3, h4, h5, Prod.mk.injEq]
  constructor
  · ring
  · simp only [Biquad.mk.injEq]
    refine ⟨trivial, trivial, trivial, trivial, trivial, by ring, trivial⟩

/-- A pass-through cascade emits its input unchanged and stays a
pass-through cascade. -/
theorem ECGFilter_id : ∀ c : ChannelState, IsIdChannel c → ∀ x : ℚ,
    (ECGFilter c x).1 = x ∧ IsIdChannel (ECGFilter c x).2 := by
  intro c
  induction c with
  | nil => intro hc x; exact ⟨rfl, hc⟩
  | cons s rest ih =>
      intro hc x
      obtain ⟨hs, hrest⟩ := List.forall_mem_cons.mp hc
      have hps := processStage_id s hs x
      have hr := ih hrest x
      constructor
      · show (ECGFilter (s :: rest) x).1 = x
        simp only [ECGFilter, hps]
        exact hr.1
      · show IsIdChannel (ECGFilter (s :: rest) x).2
        simp only [ECGFilter, hps]
        exact List.forall_mem_cons.mpr ⟨hs, hr.2⟩

/-- The very first observation of the constant pair (100, 150), before the
deadline, moves the trackers off their sentinels onto the constants. -/
theorem updateCal_first_collect (e : ℕ) (he : e < CALIBRATION_TIME_MS) :
    updateCalibration e 100 150 initCalib = preCal := by
  simp only [updateCalibration]
  rw [if_neg (fun hcond => absurd hcond.2 (Nat.not_le.mpr he))]
  decide

/-- Further pre-deadline observations of the constant pair leave the
collecting state unchanged. -/
theorem updateCal_keep_collect (e : ℕ) (he : e < CALIBRATION_TIME_MS) :
    updateCalibration e 100 150 preCal = preCal := by
  simp only [updateCalibration]
  rw [if_neg (fun hcond => absurd hcond.2 (Nat.not_le.mpr he))]
  decide

/-- At the deadline the flat (100, 150) history fires the transition:
baselines at the constants, amplitudes floored, unit gains. -/
theorem updateCal_fire_100150 (e : ℕ) (he : CALIBRATION_TIME_MS ≤ e) :
    updateCalibration e 100 150 preCal = postCal := by
  simp only [updateCalibration]
  rw [if_pos ⟨by decide, he⟩]
  norm_num [preCal, postCal, REF_MV, MIN_FLOOR, Calib.mk.injEq]

/-- After the transition, further constant observations change nothing. -/
theorem updateCal_post_100150 (e : ℕ) :
    updateCalibration e 100 150 postCal = postCal := by
  simp only [updateCalibration]
  rw [if_neg (fun hcond => hcond.1 rfl)]
  norm_num [postCal, Calib.mk.injEq]

/-- A constant (100, 150) tick through pass-through cascades: the filters
emit the constants, the calibration step sees them, and the cascades stay
pass-through. -/
theorem tick_id_100150 (e : ℕ) (s : SysState)
    (h0 : IsIdChannel s.st0) (h1 : IsIdChannel s.st1) :
    (tick e 100 150 s).1.cal = updateCalibration e 100 150 s.cal ∧
    IsIdChannel (tick e 100 150 s).1.st0 ∧ IsIdChannel (tick e 100 150 s).1.st1 := by
  have hf0 := ECGFilter_id s.st0 h0 100
  have hf1 := ECGFilter_id s.st1 h1 150
  refine ⟨?_, ?_, ?_⟩
  · show updateCalibration e (ECGFilter s.st0 100).1 (ECGFilter s.st1 150).1 s.cal =
      updateCalibration e 100 150 s.cal
    rw [hf0.1, hf1.1]
  · show IsIdChannel (ECGFilter s.st0 100).2
    exact hf0.2
  · show IsIdChannel (ECGFilter s.st1 150).2
    exact hf1.2

/-- Once calibrated on the flat history, a further constant (100, 150) tick
emits the all-zero record. -/
theorem tick_post_record (e : ℕ) (s : SysState)
    (h0 : IsIdChannel s.st0) (h1 : IsIdChannel s.st1) (hc : s.cal = postCal) :
    (tick e 100 150 s).2 = zeroRecord := by
  have hf0' : f1At s 100 = 100 := (ECGFilter_id s.st0 h0 100).1
  have hf1' : f2At s 150 = 150 := (ECGFilter_id s.st1 h1 150).1
  have hcal : calAt e 100 150 s = postCal := by
    show updateCalibration e (f1At s 100) (f2At s 150) s.cal = postCal
    rw [hf0', hf1', hc, updateCal_post_100150]
  show emitJson
      ((if (calAt e 100 150 s).calibrated then
          (f1At s 100 - (calAt e 100 150 s).baseline1) * (calAt e 100 150 s).gain1
        else f1At s 100) * MV_PER_UNIT)
      ((if (calAt e 100 150 s).calibrated then
          (f2At s 150 - (calAt e 100 150 s).baseline2) * (calAt e 100 150 s).gain2
        else f2At s 150) * MV_PER_UNIT) = zeroRecord
  rw [hcal, hf0', hf1']
  norm_num [postCal, emitJson, zeroRecord, MV_PER_UNIT, LeadRecord.mk.injEq]

/-- A run over a concatenation is the run of the second part from the state
the first part reaches. -/
theorem run_append (as bs : List TickInput) : ∀ s : SysState,
    (run s (as ++ bs)).1 = (run (run s as).1 bs).1 := by
  induction as with
  | nil => intro s; rfl
  | cons a as ih =>
      intro s
      show (run (tick a.elapsedMs a.raw1 a.raw2 s).1 (as ++ bs)).1 = _
      exact ih _

/-- A pre-deadline run of constant (100, 150) ticks through pass-through
cascades keeps the collecting state. -/
theorem run_collect_100150 (pre : List ℕ) : ∀ s : SysState,
    (∀ e ∈ pre, e < CALIBRATION_TIME_MS) →
    IsIdChannel s.st0 → IsIdChannel s.st1 → s.cal = preCal →
    IsIdChannel ((run s (pre.map fun e => (⟨e, 100, 150⟩ : TickInput))).1).st0 ∧
    IsIdChannel ((run s (pre.map fun e => (⟨e, 100, 150⟩ : TickInput))).1).st1 ∧
    ((run s (pre.map fun e => (⟨e, 100, 150⟩ : TickInput))).1).cal = preCal := by
  induction pre with
  | nil => intro s _ h0 h1 hc; exact ⟨h0, h1, hc⟩
  | cons p ps ih =>
      intro s hlt h0 h1 hc
      have hstep := tick_id_100150 p s h0 h1
      have hcal : (tick p 100 150 s).1.cal = preCal := by
        rw [hstep.1, hc]
        exact updateCal_keep_collect p (hlt p (by simp))
      exact ih (tick p 100 150 s).1 (fun e hee => hlt e (by simp [hee]))
        hstep.2.1 hstep.2.2 hcal

/-- C8: with a pass-through cascade, constants 100 / 150 through the whole
calibration window give baselines 100 / 150 and floored gains
`REF_MV / MIN_FLOOR`, and the tick after the transition emits the all-zero
record. -/
theorem endtoend_flat_calibration (pre : List ℕ) (eT eN : ℕ) (hpre : pre ≠ [])
    (hlt : ∀ e ∈ pre, e < CALIBRATION_TIME_MS) (hT : CALIBRATION_TIME_MS ≤ eT) :
    ((run idSys ((pre.map fun e => (⟨e, 100, 150⟩ : TickInput)) ++
        [⟨eT, 100, 150⟩])).1).cal.baseline1 = 100 ∧
    ((run idSys ((pre.map fun e => (⟨e, 100, 150⟩ : TickInput)) ++
        [⟨eT, 100, 150⟩])).1).cal.baseline2 = 150 ∧
    ((run idSys ((pre.map fun e => (⟨e, 100, 150⟩ : TickInput)) ++
        [⟨eT, 100, 150⟩])).1).cal.gain1 = REF_MV / MIN_FLOOR ∧
    ((run idSys ((pre.map fun e => (⟨e, 100, 150⟩ : TickInput)) ++
        [⟨eT, 100, 150⟩])).1).cal.gain2 = REF_MV / MIN_FLOOR ∧
    (tick eN 100 150 ((run idSys ((pre.map fun e => (⟨e, 100, 150⟩ : TickInput)) ++
        [⟨eT, 100, 150⟩])).1)).2 = zeroRecord := by
  cases pre with
  | nil => exact absurd rfl hpre
  | cons p ps =>
      have hid : IsIdChannel idChannel := by
        intro s hs
        have hsi : s = idStage := by simpa [idChannel] using hs
        subst hsi
        exact ⟨rfl, rfl, rfl, rfl, rfl⟩
      have h1 := tick_id_100150 p idSys hid hid
      have hcal1 : (tick p 100 150 idSys).1.cal = preCal := by
        rw [h1.1]
        exact updateCal_first_collect p (hlt p (by simp))
      have h2 := run_collect_100150 ps (tick p 100 150 idSys).1
        (fun e hee => hlt e (by simp [hee])) h1.2.1 h1.2.2 hcal1
      have h3 := tick_id_100150 eT
        ((run (tick p 100 150 idSys).1 (ps.map fun e => (⟨e, 100, 150⟩ : TickInput))).1)
        h2.1 h2.2.1
      have hcal3 : (tick eT 100 150
          ((run (tick p 100 150 idSys).1
            (ps.map fun e => (⟨e, 100, 150⟩ : TickInput))).1)).1.cal = postCal := by
        rw [h3.1, h2.2.2]
        exact updateCal_fire_100150 eT hT
      have hEq : ((run idSys (((p :: ps).map fun e => (⟨e, 100, 150⟩ : TickInput)) ++
          [⟨eT, 100, 150⟩])).1) =
          (tick eT 100 150
            ((run (tick p 100 150 idSys).1
              (ps.map fun e => (⟨e, 100, 150⟩ : TickInput))).1)).1 := by
        show ((run (tick p 100 150 idSys).1
            ((ps.map fun e => (⟨e, 100, 150⟩ : TickInput)) ++ [⟨eT, 100, 150⟩])).1) = _
        rw [run_append]
        rfl
      refine ⟨?_, ?_, ?_, ?_, ?_⟩
      · rw [hEq, hcal3]; rfl
      · rw [hEq, hcal3]; rfl
      · rw [hEq, hcal3]; norm_num [postCal, REF_MV, MIN_FLOOR]
      · rw [hEq, hcal3]; norm_num [postCal, REF_MV, MIN_FLOOR]
      · rw [hEq]
        exact tick_post_record eN _ h3.2.1 h3.2.2 hcal3

/-- Witness for C8: a two-tick window (one collecting tick, then the
deadline tick) followed by one more tick realises the scenario. -/
theorem endtoend_flat_calibration_witness :
    (([0] : List ℕ) ≠ [] ∧ (∀ e ∈ ([0] : List ℕ), e < CALIBRATION_TIME_MS) ∧
      CALIBRATION_TIME_MS ≤ 5000) ∧
    (((run idSys ((([0] : List ℕ).map fun e => (⟨e, 100, 150⟩ : TickInput)) ++
        [⟨5000, 100, 150⟩])).1).cal.baseline1 = 100 ∧
      ((run idSys ((([0] : List ℕ).map fun e => (⟨e, 100, 150⟩ : TickInput)) ++
        [⟨5000, 100, 150⟩])).1).cal.baseline2 = 150 ∧
      ((run idSys ((([0] : List ℕ).map fun e => (⟨e, 100, 150⟩ : TickInput)) ++
        [⟨5000, 100, 150⟩])).1).cal.gain1 = REF_MV / MIN_FLOOR ∧
      ((run idSys ((([0] : List ℕ).map fun e => (⟨e, 100, 150⟩ : TickInput)) ++
        [⟨5000, 100, 150⟩])).1).cal.gain2 = REF_MV / MIN_FLOOR ∧
      (tick 5008 100 150
        ((run idSys ((([0] : List ℕ).map fun e => (⟨e, 100, 150⟩ : TickInput)) ++
          [⟨5000, 100, 150⟩])).1)).2 = zeroRecord) :=
  ⟨⟨by decide, by decide, by decide⟩,
   endtoend_flat_calibration [0] 5000 5008 (by decide) (by decide) (by decide)⟩

/-- Witness for C10: a one-tick run that crosses the deadline is calibrated
and satisfies the observation invariant. -/
theorem calibrated_implies_observed_witness :
    ((run initSys [⟨6000, 2, 3⟩]).1).cal.calibrated = true ∧
    (([⟨6000, 2, 3⟩] : List TickInput) ≠ [] ∧
      ((run initSys [⟨6000, 2, 3⟩]).1).cal.min1 ≤ ((run initSys [⟨6000, 2, 3⟩]).1).cal.max1 ∧
      ((run initSys [⟨6000, 2, 3⟩]).1).cal.min2 ≤ ((run initSys [⟨6000, 2, 3⟩]).1).cal.max2 ∧
      0 ≤ (((run initSys [⟨6000, 2, 3⟩]).1).cal.max1 -
            ((run initSys [⟨6000, 2, 3⟩]).1).cal.min1) / 2 ∧
      0 ≤ (((run initSys [⟨6000, 2, 3⟩]).1).cal.max2 -
            ((run initSys [⟨6000, 2, 3⟩]).1).cal.min2) / 2) :=
  ⟨by decide, calibrated_implies_observed [⟨6000, 2, 3⟩] (by decide)⟩

end ECG

